import Mathlib

/-!
Shallow embedding of `python_gdrive/client.py`.

The repository is a thin Google Drive v2 client: a class `GoogleDrive`
holding OAuth credentials, with a one-shot token-refresh-and-retry around a
single HTTP call path, a one-shot expired-download-link recovery, and two
pagination generators.

The embedding models the network as a *script*: a list of `HttpResponse`
values served in order, one per outgoing HTTP call.  The execution state
`St` carries the client object (mutable `token` field), the remaining
script, and observation traces: every outgoing call (`calls`), every
invocation of the refresh callback (`callbackCalls`), and every
error-level log message (`errors`).  Python exceptions (`KeyError` on a
refresh response without `access_token`, transport failure when the script
is exhausted) are modelled by `PyResult`; an exception aborts the
computation but keeps the state reached so far, as in Python.
-/

namespace Gdrive

/-- A value in a Python dict used for query parameters or form data:
a string, an int, or `None`. -/
inductive PyVal where
  | vStr (s : String)
  | vInt (n : Nat)
  | vNone
deriving DecidableEq

/-- A Python dict passed as `params=` or `data=`, as a key/value list. -/
abbrev Params := List (String × PyVal)

/-- The JSON fields of server responses that the client ever reads:
`access_token` (refresh endpoint), `downloadUrl` (file description),
`items` and `nextPageToken` (listing pages).  Item contents are opaque to
the client, so an item is modelled as a `String`. -/
structure Json where
  access_token : Option String := none
  downloadUrl : Option String := none
  items : List String := []
  nextPageToken : Option String := none
deriving DecidableEq

/-- An HTTP response: status code, JSON body (as `.json()` would parse it),
and raw text (used only in the download error log message). -/
structure HttpResponse where
  status_code : Nat
  body : Json := {}
  text : String := ""
deriving DecidableEq

/-- One outgoing HTTP call as issued through the `requests` library:
either `requests.post(url, data=...)` or
`requests.request(method, url, params=..., headers=..., stream=...)`.
`url` is an `Option` because `download` can be handed `None` as its URL. -/
inductive HttpCall where
  | post (url : String) (data : Params)
  | request (method : String) (url : Option String) (params : Option Params)
      (headers : List (String × String)) (stream : Bool)
deriving DecidableEq

/-- The `GoogleDrive` instance fields set in `__init__`.  The refresh
callback is an opaque callable; the model only records whether one is
configured (`refresh_callback = true` iff not `None`) and traces its
invocations in the state. -/
structure GoogleDrive where
  token : String
  refresh_token : String
  client_id : String
  client_secret : String
  refresh_callback : Bool
deriving DecidableEq

/-- Execution state: the client instance, the scripted responses the
network will serve in order, and the observation traces. -/
structure St where
  client : GoogleDrive
  script : List HttpResponse
  calls : List HttpCall := []
  callbackCalls : List (String × String) := []
  errors : List String := []
deriving DecidableEq

/-- A Python exception: `KeyError` (missing JSON field) or a transport
error (the response script is exhausted, i.e. the server hangs up). -/
inductive PyError where
  | keyError (k : String)
  | connectionError
deriving DecidableEq

/-- Outcome of running a piece of client code: a value, or an uncaught
Python exception. -/
inductive PyResult (α : Type) where
  | ok (a : α)
  | exn (e : PyError)
deriving DecidableEq

/-- Issue one HTTP call: record it in the trace and serve the next
scripted response (a transport error if the script is exhausted). -/
def http (c : HttpCall) (s : St) : PyResult HttpResponse × St :=
  match s.script with
  | [] => (.exn .connectionError, { s with calls := s.calls ++ [c] })
  | r :: rest => (.ok r, { s with script := rest, calls := s.calls ++ [c] })

/-- Embedding of `GoogleDrive.__token_header`. -/
def token_header (c : GoogleDrive) : List (String × String) :=
  [("Authorization", "Bearer " ++ c.token)]

/-- Embedding of `GoogleDrive.__refresh_token`: POST the refresh form to the token
endpoint, store the `access_token` field of the JSON response (a
`KeyError` if absent), and invoke the refresh callback with
(new token, refresh token) when one is configured. -/
def refresh_token' (s : St) : PyResult Unit × St :=
  let refresh_data : Params := [
    ("refresh_token", .vStr s.client.refresh_token),
    ("client_id", .vStr s.client.client_id),
    ("client_secret", .vStr s.client.client_secret),
    ("grant_type", .vStr "refresh_token")]
  match http (.post "https://accounts.google.com/o/oauth2/token" refresh_data) s with
  | (.exn e, s1) => (.exn e, s1)
  | (.ok response, s1) =>
    match response.body.access_token with
    | none => (.exn (.keyError "access_token"), s1)
    | some t =>
      let s2 := { s1 with client := { s1.client with token := t } }
      if s2.client.refresh_callback then
        (.ok (), { s2 with
          callbackCalls := s2.callbackCalls ++ [(s2.client.token, s2.client.refresh_token)] })
      else
        (.ok (), s2)

/-- Embedding of `GoogleDrive.__request`: one authenticated call against the API base
URL; on a 401 with `refreshed=False`, refresh the token and retry once
with `refreshed=True`.  NB the source's retry `self.__request(method,
path, refreshed=True)` does not forward `params`, so the retry carries
`params=None`. -/
def request (method path : String) (params : Option Params) (refreshed : Bool) (s : St) :
    PyResult HttpResponse × St :=
  let url := "https://www.googleapis.com/drive/v2/" ++ path
  let headers := token_header s.client
  match http (.request method (some url) params headers false) s with
  | (.exn e, s1) => (.exn e, s1)
  | (.ok response, s1) =>
    if response.status_code == 401 then
      match refreshed with
      | true => (.ok response, s1)
      | false =>
        match refresh_token' s1 with
        | (.exn e, s2) => (.exn e, s2)
        | (.ok _, s2) => request method path none true s2
    else
      (.ok response, s1)
termination_by (if refreshed then 0 else 1)
decreasing_by simp

/-- Embedding of `GoogleDrive.get_file`. -/
def get_file (file_id : String) (s : St) : PyResult HttpResponse × St :=
  request "get" ("files/" ++ file_id) none false s

/-- The error-level log message `download` emits when the file
description fetch during expired-link recovery does not return 200
(the source's `'Could not retrieve file description: {file_id}'
': {status_code} {response}'`). -/
def descErrMsg (fid : String) (d : HttpResponse) : String :=
  "Could not retrieve file description: " ++ fid ++ ": " ++
    toString d.status_code ++ " " ++ d.text

/-- Embedding of `GoogleDrive.download`: streamed GET against the given URL.  On 401
with `refreshed=False`, refresh and retry once — NB the source's retry
`self.download(url, refreshed=True)` does not forward `file_id`, so the
retry carries `file_id=None`.  On 403 with a non-`None` `file_id`, fetch
a fresh file description; if it comes back 200, retry against its
`downloadUrl` field (possibly `None`) with `file_id=None` and the original
`refreshed`; otherwise log an error and return the original 403. -/
def download (url : Option String) (refreshed : Bool) (file_id : Option String) (s : St) :
    PyResult HttpResponse × St :=
  let headers := token_header s.client
  match http (.request "get" url none headers true) s with
  | (.exn e, s1) => (.exn e, s1)
  | (.ok response, s1) =>
    if response.status_code == 401 then
      match refreshed with
      | true => (.ok response, s1)
      | false =>
        match refresh_token' s1 with
        | (.exn e, s2) => (.exn e, s2)
        | (.ok _, s2) => download url true none s2
    else if response.status_code == 403 then
      match file_id with
      | some fid =>
        match get_file fid s1 with
        | (.exn e, s2) => (.exn e, s2)
        | (.ok file_desc, s2) =>
          if file_desc.status_code == 200 then
            download file_desc.body.downloadUrl refreshed none s2
          else
            let msg := descErrMsg fid file_desc
            (.ok response, { s2 with errors := s2.errors ++ [msg] })
      | none => (.ok response, s1)
    else
      (.ok response, s1)
termination_by (if refreshed then 0 else 1) + (if file_id.isSome then 1 else 0)
decreasing_by
  · simp
  · simp

/-- The `params` dict built by `GoogleDrive.get_user_files`. -/
def userFilesParams (count : Nat) (page_token : Option String) : Params := [
  ("q", .vStr "mimeType != \x27application/vnd.google-apps.folder\x27"),
  ("maxResults", .vInt count),
  ("pageToken", match page_token with | none => .vNone | some t => .vStr t)]

/-- Embedding of `GoogleDrive.get_user_files`: one page of the files
listing. -/
def get_user_files (count : Nat) (page_token : Option String) (s : St) :
    PyResult HttpResponse × St :=
  request "get" "files" (some (userFilesParams count page_token)) false s

/-- Python truthiness test `not next_page_token` on the value of
`response.get('nextPageToken', None)`: `None` and `""` are falsy. -/
def pyFalsy : Option String → Bool
  | none => true
  | some t => t == ""

/-- Embedding of `GoogleDrive.get_user_files_generator`, run to exhaustion from a given
page token.  Each loop iteration fetches one page, yields its `items`,
and stops when `nextPageToken` is falsy.  `fuel` bounds the number of
iterations the model executes (the Python loop is unbounded); theorems
always supply enough fuel for the scripted pages. -/
def get_user_files_generator_from (count : Nat) (next_page_token : Option String) :
    Nat → St → PyResult (List String) × St
  | 0, s => (.ok [], s)
  | fuel + 1, s =>
    match get_user_files count next_page_token s with
    | (.exn e, s1) => (.exn e, s1)
    | (.ok resp, s1) =>
      let response := resp.body
      let npt := response.nextPageToken
      let items := response.items
      if pyFalsy npt then
        (.ok items, s1)
      else
        match get_user_files_generator_from count npt fuel s1 with
        | (.exn e, s2) => (.exn e, s2)
        | (.ok rest, s2) => (.ok (items ++ rest), s2)

/-- Embedding of `GoogleDrive.get_user_files_generator` run to exhaustion
(the loop starts with `next_page_token = None`). -/
def get_user_files_generator (count fuel : Nat) (s : St) : PyResult (List String) × St :=
  get_user_files_generator_from count none fuel s

/-- The `params` dict built by `GoogleDrive.get_file_comments`. -/
def commentsParams (count : Nat) (page_token : Option String) : Params := [
  ("maxResults", .vInt count),
  ("pageToken", match page_token with | none => .vNone | some t => .vStr t)]

/-- Embedding of `GoogleDrive.get_file_comments`: one page of a file's
comments. -/
def get_file_comments (file_id : String) (count : Nat) (page_token : Option String) (s : St) :
    PyResult HttpResponse × St :=
  request "get" ("files/" ++ file_id ++ "/comments") (some (commentsParams count page_token)) false s

/-- Embedding of `GoogleDrive.get_file_comments_generator`, run to
exhaustion from a given page token, with the same fuel convention as the
files generator. -/
def get_file_comments_generator_from (file_id : String) (count : Nat)
    (next_page_token : Option String) :
    Nat → St → PyResult (List String) × St
  | 0, s => (.ok [], s)
  | fuel + 1, s =>
    match get_file_comments file_id count next_page_token s with
    | (.exn e, s1) => (.exn e, s1)
    | (.ok resp, s1) =>
      let response := resp.body
      let npt := response.nextPageToken
      let items := response.items
      if pyFalsy npt then
        (.ok items, s1)
      else
        match get_file_comments_generator_from file_id count npt fuel s1 with
        | (.exn e, s2) => (.exn e, s2)
        | (.ok rest, s2) => (.ok (items ++ rest), s2)

/-- Embedding of `GoogleDrive.get_file_comments_generator` run to
exhaustion. -/
def get_file_comments_generator (file_id : String) (count fuel : Nat) (s : St) :
    PyResult (List String) × St :=
  get_file_comments_generator_from file_id count none fuel s

/-- The POST to the token endpoint that `__refresh_token` issues for a
given client. -/
def refreshCall (c : GoogleDrive) : HttpCall :=
  .post "https://accounts.google.com/o/oauth2/token" [
    ("refresh_token", .vStr c.refresh_token),
    ("client_id", .vStr c.client_id),
    ("client_secret", .vStr c.client_secret),
    ("grant_type", .vStr "refresh_token")]

/-- The authenticated API call `__request` issues for a given method,
path, params and access token. -/
def apiCall (method path : String) (params : Option Params) (tok : String) : HttpCall :=
  .request method (some ("https://www.googleapis.com/drive/v2/" ++ path)) params
    [("Authorization", "Bearer " ++ tok)] false

/-- The streamed GET that `download` issues for a given URL and access
token. -/
def downloadCall (url : Option String) (tok : String) : HttpCall :=
  .request "get" url none [("Authorization", "Bearer " ++ tok)] true

/-- The four credential fields of the client that the spec calls
immutable: everything except the access token. -/
def sameCreds (c c' : GoogleDrive) : Prop :=
  c'.refresh_token = c.refresh_token ∧ c'.client_id = c.client_id ∧
    c'.client_secret = c.client_secret ∧ c'.refresh_callback = c.refresh_callback

/-- Is an outgoing call a `requests.post` to the token endpoint (the only
`post` the client ever makes)? -/
def isPost : HttpCall → Bool
  | .post _ _ => true
  | .request _ _ _ _ _ => false

/-- Number of refresh POSTs in a trace. -/
def postCount (l : List HttpCall) : Nat := (l.filter isPost).length

/-- Number of non-POST HTTP calls (API attempts and downloads) in a
trace. -/
def apiCount (l : List HttpCall) : Nat := (l.filter fun c => !isPost c).length

/-- How one client operation may evolve the execution state: the
immutable credentials are preserved, the call trace only grows, the
script is only consumed, and the access token changes only if a refresh
POST was appended to the trace. -/
structure Evolves (s s' : St) : Prop where
  creds : sameCreds s.client s'.client
  callsGrow : ∃ t, s'.calls = s.calls ++ t
  scriptShrinks : ∃ t, s.script = t ++ s'.script
  tokenByPost : s'.client.token = s.client.token ∨ postCount s.calls < postCount s'.calls

/-- No response in the given script has status 401 (so no attempt can
report an expired token). -/
def no401 (l : List HttpResponse) : Prop := ∀ r ∈ l, r.status_code ≠ 401

/-- A listing page as the scripted server serves it: a 200 response whose
body has the given `items` and `nextPageToken`. -/
def pageResp : List String × Option String → HttpResponse
  | (its, ntok) => { status_code := 200, body := { items := its, nextPageToken := ntok } }

/-- A well-formed finite page sequence: every page but the last carries a
truthy `nextPageToken`, and the last page's token is falsy. -/
def chainOkb : List (List String × Option String) → Bool
  | [] => false
  | [(_, ntok)] => pyFalsy ntok
  | (_, ntok) :: p :: rest => !pyFalsy ntok && chainOkb (p :: rest)

/-- All items of a page sequence, in page-then-item order. -/
def pagesItems (ps : List (List String × Option String)) : List String :=
  (ps.map Prod.fst).flatten

/-- The page-fetch call `get_user_files` issues for a given access token,
page size and page token. -/
def userFilesCall (tok : String) (count : Nat) (pt : Option String) : HttpCall :=
  apiCall "get" "files" (some (userFilesParams count pt)) tok

/-- The page fetches the files generator performs over a page sequence:
one per page, each advanced with the previous page's `nextPageToken`. -/
def userFetchCalls (tok : String) (count : Nat) :
    Option String → List (List String × Option String) → List HttpCall
  | _, [] => []
  | pt, (_, ntok) :: rest => userFilesCall tok count pt :: userFetchCalls tok count ntok rest

/-- The page-fetch call `get_file_comments` issues. -/
def commentsCall (tok fid : String) (count : Nat) (pt : Option String) : HttpCall :=
  apiCall "get" ("files/" ++ fid ++ "/comments") (some (commentsParams count pt)) tok

/-- The page fetches the comments generator performs over a page
sequence. -/
def commentsFetchCalls (tok fid : String) (count : Nat) :
    Option String → List (List String × Option String) → List HttpCall
  | _, [] => []
  | pt, (_, ntok) :: rest => commentsCall tok fid count pt :: commentsFetchCalls tok fid count ntok rest

/-- A demonstration client instance with no refresh callback, used by the
concrete runs below. -/
def demoClient : GoogleDrive :=
  { token := "tok0", refresh_token := "rt", client_id := "cid",
    client_secret := "cs", refresh_callback := false }

/-- A bare 401 response. -/
def resp401 : HttpResponse := { status_code := 401 }

/-- A bare 403 response. -/
def resp403 : HttpResponse := { status_code := 403 }

/-- A successful token-refresh response carrying access token `tok1`. -/
def respRefresh : HttpResponse :=
  { status_code := 200, body := { access_token := some "tok1" } }

/-- A plain 200 response. -/
def resp200 : HttpResponse := { status_code := 200 }

/-- The demonstration client with a refresh callback configured. -/
def demoClientCB : GoogleDrive := { demoClient with refresh_callback := true }

/-- A 200 file-description response carrying a fresh download URL. -/
def fileDescOK : HttpResponse :=
  { status_code := 200, body := { downloadUrl := some "https://new" } }

/-- A 404 file-description response. -/
def fileDesc404 : HttpResponse := { status_code := 404, text := "not found" }

/-- A 200 file-description response whose body lacks `downloadUrl`. -/
def fileDescNoUrl : HttpResponse := { status_code := 200 }

/-- Initial state for the 401-then-refresh-then-200 run: a client with a
callback and a script serving 401, a good refresh, then 200. -/
def sC1 : St := { client := demoClientCB, script := [resp401, respRefresh, resp200] }

/-- Initial state for the persistent-401 run: both API attempts return
401, with a good refresh in between. -/
def sC2 : St := { client := demoClient, script := [resp401, respRefresh, resp401] }

/-- Initial state for the parameter-dropping run: a listing request that
hits a 401 and is retried after a good refresh. -/
def sC3 : St := { client := demoClient, script := [resp401, respRefresh, resp200] }

/-- Initial state for the expired-download-link run: the download URL
returns 403, then the file description is served, then the fresh URL's
content. -/
def sC4 : St := { client := demoClient, script := [resp403, fileDescOK, resp200] }

/-- Initial state for the failed-recovery run: the download URL returns
403 and the file-description fetch returns 404. -/
def sC5 : St := { client := demoClient, script := [resp403, fileDesc404] }

/-- Initial state for the 401-then-403 download run: the first GET gets
401, the refresh succeeds, and the retried GET gets 403. -/
def sC6 : St := { client := demoClient, script := [resp401, respRefresh, resp403] }

/-- Three listing pages of sizes 2, 2 and 1, with `nextPageToken` on the
first two pages only. -/
def pagesDemo : List (List String × Option String) :=
  [(["a", "b"], some "p2"), (["c", "d"], some "p3"), (["e"], none)]

/-- A single listing page with no items and no `nextPageToken`. -/
def pagesEmpty : List (List String × Option String) := [([], none)]

/-- Initial state serving the three demonstration listing pages. -/
def sC7U : St := { client := demoClient, script := pagesDemo.map pageResp }

/-- Initial state serving the single empty comments page. -/
def sC7C : St := { client := demoClient, script := pagesEmpty.map pageResp }

/-- Initial state for the round-trip-counting run (same script as the
401-refresh-200 run, no callback). -/
def sC8 : St := { client := demoClient, script := [resp401, respRefresh, resp200] }

/-- Initial state with a single 200 response, used to instantiate the
credential invariants. -/
def sC9 : St := { client := demoClient, script := [resp200] }

/-- Initial state for the missing-`downloadUrl` recovery run. -/
def sC10 : St := { client := demoClient, script := [resp403, fileDescNoUrl, resp200] }

end Gdrive

namespace Gdrive

theorem http_nil (c : HttpCall) (s : St) (h : s.script = []) :
    http c s = (.exn .connectionError, { s with calls := s.calls ++ [c] }) := by
  simp [http, h]

theorem http_cons (c : HttpCall) (s : St) (r : HttpResponse) (rest : List HttpResponse)
    (h : s.script = r :: rest) :
    http c s = (.ok r, { s with script := rest, calls := s.calls ++ [c] }) := by
  simp [http, h]

theorem refresh_ok (s : St) (r : HttpResponse) (rest : List HttpResponse) (t : String)
    (hs : s.script = r :: rest) (ht : r.body.access_token = some t) :
    refresh_token' s = (.ok (),
      { client := { s.client with token := t },
        script := rest,
        calls := s.calls ++ [refreshCall s.client],
        callbackCalls := if s.client.refresh_callback then
            s.callbackCalls ++ [(t, s.client.refresh_token)]
          else s.callbackCalls,
        errors := s.errors }) := by
  cases hcb : s.client.refresh_callback <;>
    simp [refresh_token', http, hs, ht, hcb, refreshCall]

theorem refresh_nil (s : St) (hs : s.script = []) :
    refresh_token' s = (.exn .connectionError,
      { s with calls := s.calls ++ [refreshCall s.client] }) := by
  simp [refresh_token', http, hs, refreshCall]

theorem refresh_keyerr (s : St) (r : HttpResponse) (rest : List HttpResponse)
    (hs : s.script = r :: rest) (ht : r.body.access_token = none) :
    refresh_token' s = (.exn (.keyError "access_token"),
      { s with script := rest, calls := s.calls ++ [refreshCall s.client] }) := by
  simp [refresh_token', http, hs, ht, refreshCall]

theorem evolves_refl (s : St) : Evolves s s :=
  ⟨⟨rfl, rfl, rfl, rfl⟩, ⟨[], by simp⟩, ⟨[], by simp⟩, .inl rfl⟩

theorem postCount_mono {l l' : List HttpCall} (h : ∃ t, l' = l ++ t) :
    postCount l ≤ postCount l' := by
  obtain ⟨t, ht⟩ := h
  simp [postCount, ht, List.filter_append]

theorem evolves_trans {s1 s2 s3 : St} (h12 : Evolves s1 s2) (h23 : Evolves s2 s3) :
    Evolves s1 s3 := by
  obtain ⟨⟨a1, b1, c1, d1⟩, ⟨t1, ht1⟩, ⟨u1, hu1⟩, e1⟩ := h12
  obtain ⟨⟨a2, b2, c2, d2⟩, ⟨t2, ht2⟩, ⟨u2, hu2⟩, e2⟩ := h23
  refine ⟨⟨a2.trans a1, b2.trans b1, c2.trans c1, d2.trans d1⟩,
    ⟨t1 ++ t2, by rw [ht2, ht1, List.append_assoc]⟩,
    ⟨u1 ++ u2, by rw [hu1, hu2, List.append_assoc]⟩, ?_⟩
  have hm12 : postCount s1.calls ≤ postCount s2.calls := postCount_mono ⟨t1, ht1⟩
  have hm23 : postCount s2.calls ≤ postCount s3.calls := postCount_mono ⟨t2, ht2⟩
  rcases e1 with e1 | e1 <;> rcases e2 with e2 | e2
  · exact .inl (e2.trans e1)
  · exact .inr (lt_of_le_of_lt hm12 e2)
  · exact .inr (lt_of_lt_of_le e1 hm23)
  · exact .inr (e1.trans e2)

theorem evolves_http (c : HttpCall) (s : St) : Evolves s (http c s).2 := by
  cases hs : s.script with
  | nil =>
    rw [http_nil c s hs]
    exact ⟨⟨rfl, rfl, rfl, rfl⟩, ⟨[c], rfl⟩, ⟨[], by simp [hs]⟩, .inl rfl⟩
  | cons r rest =>
    rw [http_cons c s r rest hs]
    exact ⟨⟨rfl, rfl, rfl, rfl⟩, ⟨[c], rfl⟩, ⟨[r], by simp [hs]⟩, .inl rfl⟩

theorem evolves_refresh (s : St) : Evolves s (refresh_token' s).2 := by
  cases hs : s.script with
  | nil =>
    rw [refresh_nil s hs]
    exact ⟨⟨rfl, rfl, rfl, rfl⟩, ⟨[_], rfl⟩, ⟨[], by simp [hs]⟩, .inl rfl⟩
  | cons r rest =>
    cases ht : r.body.access_token with
    | none =>
      rw [refresh_keyerr s r rest hs ht]
      exact ⟨⟨rfl, rfl, rfl, rfl⟩, ⟨[_], rfl⟩, ⟨[r], by simp [hs]⟩, .inl rfl⟩
    | some t =>
      rw [refresh_ok s r rest t hs ht]
      refine ⟨⟨rfl, rfl, rfl, rfl⟩, ⟨[_], rfl⟩, ⟨[r], by simp [hs]⟩, .inr ?_⟩
      simp [postCount, List.filter_append, isPost, refreshCall]

theorem evolves_consume (s : St) (c : HttpCall) (r : HttpResponse) (rest : List HttpResponse)
    (hs : s.script = r :: rest) :
    Evolves s { s with script := rest, calls := s.calls ++ [c] } :=
  ⟨⟨rfl, rfl, rfl, rfl⟩, ⟨[c], rfl⟩, ⟨[r], by simp [hs]⟩, .inl rfl⟩

theorem evolves_emit (s : St) (c : HttpCall) :
    Evolves s { s with calls := s.calls ++ [c] } :=
  ⟨⟨rfl, rfl, rfl, rfl⟩, ⟨[c], rfl⟩, ⟨[], by simp⟩, .inl rfl⟩

theorem request_nil (method path : String) (params : Option Params) (refreshed : Bool) (s : St)
    (hs : s.script = []) :
    request method path params refreshed s = (.exn .connectionError,
      { s with calls := s.calls ++ [apiCall method path params s.client.token] }) := by
  simp [request, http, hs, apiCall, token_header]

theorem request_non401 (method path : String) (params : Option Params) (refreshed : Bool) (s : St)
    (r : HttpResponse) (rest : List HttpResponse)
    (hs : s.script = r :: rest) (hr : r.status_code ≠ 401) :
    request method path params refreshed s = (.ok r,
      { s with script := rest, calls := s.calls ++ [apiCall method path params s.client.token] }) := by
  simp [request, http, hs, apiCall, token_header, hr]

theorem request_401_refreshed (method path : String) (params : Option Params) (s : St)
    (r : HttpResponse) (rest : List HttpResponse)
    (hs : s.script = r :: rest) (hr : r.status_code = 401) :
    request method path params true s = (.ok r,
      { s with script := rest, calls := s.calls ++ [apiCall method path params s.client.token] }) := by
  simp [request, http, hs, apiCall, token_header, hr]

theorem request_401_refresh_ok (method path : String) (params : Option Params) (s s2 : St)
    (r : HttpResponse) (rest : List HttpResponse) (u : Unit)
    (hs : s.script = r :: rest) (hr : r.status_code = 401)
    (hrf : refresh_token'
      { s with script := rest,
               calls := s.calls ++ [apiCall method path params s.client.token] } = (.ok u, s2)) :
    request method path params false s = request method path none true s2 := by
  simp only [apiCall, token_header] at hrf
  conv_lhs => rw [request]
  simp [http, hs, token_header, hr, hrf]

theorem request_401_refresh_exn (method path : String) (params : Option Params) (s s2 : St)
    (r : HttpResponse) (rest : List HttpResponse) (e : PyError)
    (hs : s.script = r :: rest) (hr : r.status_code = 401)
    (hrf : refresh_token'
      { s with script := rest,
               calls := s.calls ++ [apiCall method path params s.client.token] } = (.exn e, s2)) :
    request method path params false s = (.exn e, s2) := by
  simp only [apiCall, token_header] at hrf
  conv_lhs => rw [request]
  simp [http, hs, token_header, hr, hrf]

theorem evolves_request (method path : String) (params : Option Params) (refreshed : Bool) (s : St) :
    Evolves s (request method path params refreshed s).2 := by
  cases refreshed with
  | true =>
    cases hs : s.script with
    | nil =>
      rw [request_nil method path params true s hs]
      exact evolves_emit s _
    | cons r rest =>
      by_cases hr : r.status_code = 401
      · rw [request_401_refreshed method path params s r rest hs hr]
        exact evolves_consume s _ r rest hs
      · rw [request_non401 method path params true s r rest hs hr]
        exact evolves_consume s _ r rest hs
  | false =>
    cases hs : s.script with
    | nil =>
      rw [request_nil method path params false s hs]
      exact evolves_emit s _
    | cons r rest =>
      by_cases hr : r.status_code = 401
      · have h1 : Evolves s
            { s with script := rest,
                     calls := s.calls ++ [apiCall method path params s.client.token] } :=
          evolves_consume s _ r rest hs
        rcases hrf : refresh_token'
            { s with script := rest,
                     calls := s.calls ++ [apiCall method path params s.client.token] } with
          ⟨res, s2⟩
        have h2 : Evolves
            { s with script := rest,
                     calls := s.calls ++ [apiCall method path params s.client.token] } s2 := by
          have h3 := evolves_refresh
            { s with script := rest,
                     calls := s.calls ++ [apiCall method path params s.client.token] }
          rwa [hrf] at h3
        cases res with
        | exn e =>
          rw [request_401_refresh_exn method path params s s2 r rest e hs hr hrf]
          exact evolves_trans h1 h2
        | ok u =>
          rw [request_401_refresh_ok method path params s s2 r rest u hs hr hrf]
          exact evolves_trans (evolves_trans h1 h2) (evolves_request method path none true s2)
      · rw [request_non401 method path params false s r rest hs hr]
        exact evolves_consume s _ r rest hs
termination_by (if refreshed then 0 else 1)
decreasing_by simp

theorem download_nil (url : Option String) (refreshed : Bool) (file_id : Option String) (s : St)
    (hs : s.script = []) :
    download url refreshed file_id s = (.exn .connectionError,
      { s with calls := s.calls ++ [downloadCall url s.client.token] }) := by
  simp [download, http, hs, downloadCall, token_header]

theorem download_plain (url : Option String) (refreshed : Bool) (file_id : Option String) (s : St)
    (r : HttpResponse) (rest : List HttpResponse)
    (hs : s.script = r :: rest) (hr1 : r.status_code ≠ 401) (hr3 : r.status_code ≠ 403) :
    download url refreshed file_id s = (.ok r,
      { s with script := rest, calls := s.calls ++ [downloadCall url s.client.token] }) := by
  cases file_id <;> simp [download, http, hs, downloadCall, token_header, hr1, hr3]

theorem download_403_nofid (url : Option String) (refreshed : Bool) (s : St)
    (r : HttpResponse) (rest : List HttpResponse)
    (hs : s.script = r :: rest) (hr3 : r.status_code = 403) :
    download url refreshed none s = (.ok r,
      { s with script := rest, calls := s.calls ++ [downloadCall url s.client.token] }) := by
  simp [download, http, hs, downloadCall, token_header, hr3]

theorem download_401_refreshed (url : Option String) (file_id : Option String) (s : St)
    (r : HttpResponse) (rest : List HttpResponse)
    (hs : s.script = r :: rest) (hr : r.status_code = 401) :
    download url true file_id s = (.ok r,
      { s with script := rest, calls := s.calls ++ [downloadCall url s.client.token] }) := by
  cases file_id <;> simp [download, http, hs, downloadCall, token_header, hr]

theorem download_401_refresh_ok (url : Option String) (file_id : Option String) (s s2 : St)
    (r : HttpResponse) (rest : List HttpResponse) (u : Unit)
    (hs : s.script = r :: rest) (hr : r.status_code = 401)
    (hrf : refresh_token'
      { s with script := rest,
               calls := s.calls ++ [downloadCall url s.client.token] } = (.ok u, s2)) :
    download url false file_id s = download url true none s2 := by
  simp only [downloadCall, token_header] at hrf
  conv_lhs => rw [download]
  cases file_id <;> simp [http, hs, token_header, hr, hrf]

theorem download_401_refresh_exn (url : Option String) (file_id : Option String) (s s2 : St)
    (r : HttpResponse) (rest : List HttpResponse) (e : PyError)
    (hs : s.script = r :: rest) (hr : r.status_code = 401)
    (hrf : refresh_token'
      { s with script := rest,
               calls := s.calls ++ [downloadCall url s.client.token] } = (.exn e, s2)) :
    download url false file_id s = (.exn e, s2) := by
  simp only [downloadCall, token_header] at hrf
  conv_lhs => rw [download]
  cases file_id <;> simp [http, hs, token_header, hr, hrf]

theorem download_403_fid_ok (url : Option String) (refreshed : Bool) (fid : String) (s s2 : St)
    (r d : HttpResponse) (rest : List HttpResponse)
    (hs : s.script = r :: rest) (hr3 : r.status_code = 403)
    (hgf : get_file fid
      { s with script := rest,
               calls := s.calls ++ [downloadCall url s.client.token] } = (.ok d, s2))
    (hd : d.status_code = 200) :
    download url refreshed (some fid) s = download d.body.downloadUrl refreshed none s2 := by
  simp only [downloadCall, token_header] at hgf
  conv_lhs => rw [download]
  simp [http, hs, token_header, hr3, hgf, hd]

theorem download_403_fid_err (url : Option String) (refreshed : Bool) (fid : String) (s s2 : St)
    (r d : HttpResponse) (rest : List HttpResponse)
    (hs : s.script = r :: rest) (hr3 : r.status_code = 403)
    (hgf : get_file fid
      { s with script := rest,
               calls := s.calls ++ [downloadCall url s.client.token] } = (.ok d, s2))
    (hd : d.status_code ≠ 200) :
    download url refreshed (some fid) s =
      (.ok r, { s2 with errors := s2.errors ++ [descErrMsg fid d] }) := by
  simp only [downloadCall, token_header] at hgf
  conv_lhs => rw [download]
  simp [http, hs, token_header, hr3, hgf, hd]

theorem download_403_fid_exn (url : Option String) (refreshed : Bool) (fid : String) (s s2 : St)
    (r : HttpResponse) (rest : List HttpResponse) (e : PyError)
    (hs : s.script = r :: rest) (hr3 : r.status_code = 403)
    (hgf : get_file fid
      { s with script := rest,
               calls := s.calls ++ [downloadCall url s.client.token] } = (.exn e, s2)) :
    download url refreshed (some fid) s = (.exn e, s2) := by
  simp only [downloadCall, token_header] at hgf
  conv_lhs => rw [download]
  simp [http, hs, token_header, hr3, hgf]

theorem evolves_errors (s : St) (m : String) :
    Evolves s { s with errors := s.errors ++ [m] } :=
  ⟨⟨rfl, rfl, rfl, rfl⟩, ⟨[], by simp⟩, ⟨[], by simp⟩, .inl rfl⟩

theorem evolves_download_none (url : Option String) (refreshed : Bool) (s : St) :
    Evolves s (download url refreshed none s).2 := by
  cases hs : s.script with
  | nil =>
    rw [download_nil url refreshed none s hs]
    exact evolves_emit s _
  | cons r rest =>
    by_cases hr1 : r.status_code = 401
    · cases refreshed with
      | true =>
        rw [download_401_refreshed url none s r rest hs hr1]
        exact evolves_consume s _ r rest hs
      | false =>
        have h1 : Evolves s
            { s with script := rest,
                     calls := s.calls ++ [downloadCall url s.client.token] } :=
          evolves_consume s _ r rest hs
        rcases hrf : refresh_token'
            { s with script := rest,
                     calls := s.calls ++ [downloadCall url s.client.token] } with
          ⟨res, s2⟩
        have h2 : Evolves
            { s with script := rest,
                     calls := s.calls ++ [downloadCall url s.client.token] } s2 := by
          have h3 := evolves_refresh
            { s with script := rest,
                     calls := s.calls ++ [downloadCall url s.client.token] }
          rwa [hrf] at h3
        cases res with
        | exn e =>
          rw [download_401_refresh_exn url none s s2 r rest e hs hr1 hrf]
          exact evolves_trans h1 h2
        | ok u =>
          rw [download_401_refresh_ok url none s s2 r rest u hs hr1 hrf]
          exact evolves_trans (evolves_trans h1 h2) (evolves_download_none url true s2)
    · by_cases hr3 : r.status_code = 403
      · rw [download_403_nofid url refreshed s r rest hs hr3]
        exact evolves_consume s _ r rest hs
      · rw [download_plain url refreshed none s r rest hs hr1 hr3]
        exact evolves_consume s _ r rest hs
termination_by (if refreshed then 0 else 1)
decreasing_by simp

theorem evolves_download (url : Option String) (refreshed : Bool) (file_id : Option String)
    (s : St) : Evolves s (download url refreshed file_id s).2 := by
  cases file_id with
  | none => exact evolves_download_none url refreshed s
  | some fid =>
    cases hs : s.script with
    | nil =>
      rw [download_nil url refreshed (some fid) s hs]
      exact evolves_emit s _
    | cons r rest =>
      have h1 : Evolves s
          { s with script := rest,
                   calls := s.calls ++ [downloadCall url s.client.token] } :=
        evolves_consume s _ r rest hs
      by_cases hr1 : r.status_code = 401
      · cases refreshed with
        | true =>
          rw [download_401_refreshed url (some fid) s r rest hs hr1]
          exact evolves_consume s _ r rest hs
        | false =>
          rcases hrf : refresh_token'
              { s with script := rest,
                       calls := s.calls ++ [downloadCall url s.client.token] } with
            ⟨res, s2⟩
          have h2 : Evolves
              { s with script := rest,
                       calls := s.calls ++ [downloadCall url s.client.token] } s2 := by
            have h3 := evolves_refresh
              { s with script := rest,
                       calls := s.calls ++ [downloadCall url s.client.token] }
            rwa [hrf] at h3
          cases res with
          | exn e =>
            rw [download_401_refresh_exn url (some fid) s s2 r rest e hs hr1 hrf]
            exact evolves_trans h1 h2
          | ok u =>
            rw [download_401_refresh_ok url (some fid) s s2 r rest u hs hr1 hrf]
            exact evolves_trans (evolves_trans h1 h2) (evolves_download_none url true s2)
      · by_cases hr3 : r.status_code = 403
        · rcases hgf : get_file fid
              { s with script := rest,
                       calls := s.calls ++ [downloadCall url s.client.token] } with
            ⟨res, s2⟩
          have h2 : Evolves
              { s with script := rest,
                       calls := s.calls ++ [downloadCall url s.client.token] } s2 := by
            have h3 : Evolves
                { s with script := rest,
                         calls := s.calls ++ [downloadCall url s.client.token] }
                (get_file fid
                  { s with script := rest,
                           calls := s.calls ++ [downloadCall url s.client.token] }).2 :=
              evolves_request "get" ("files/" ++ fid) none false _
            rwa [hgf] at h3
          cases res with
          | exn e =>
            rw [download_403_fid_exn url refreshed fid s s2 r rest e hs hr3 hgf]
            exact evolves_trans h1 h2
          | ok d =>
            by_cases hd : d.status_code = 200
            · rw [download_403_fid_ok url refreshed fid s s2 r d rest hs hr3 hgf hd]
              exact evolves_trans (evolves_trans h1 h2)
                (evolves_download_none d.body.downloadUrl refreshed s2)
            · rw [download_403_fid_err url refreshed fid s s2 r d rest hs hr3 hgf hd]
              exact evolves_trans (evolves_trans h1 h2) (evolves_errors s2 _)
        · rw [download_plain url refreshed (some fid) s r rest hs hr1 hr3]
          exact evolves_consume s _ r rest hs

theorem calls_http (c : HttpCall) (s : St) : (http c s).2.calls = s.calls ++ [c] := by
  cases hs : s.script <;> simp [http, hs]

theorem calls_refresh (s : St) :
    (refresh_token' s).2.calls = s.calls ++ [refreshCall s.client] := by
  cases hs : s.script with
  | nil => rw [refresh_nil s hs]
  | cons r rest =>
    cases ht : r.body.access_token with
    | none => rw [refresh_keyerr s r rest hs ht]
    | some t => rw [refresh_ok s r rest t hs ht]

theorem calls_request_true (method path : String) (params : Option Params) (s : St) :
    (request method path params true s).2.calls =
      s.calls ++ [apiCall method path params s.client.token] := by
  cases hs : s.script with
  | nil => rw [request_nil method path params true s hs]
  | cons r rest =>
    by_cases hr : r.status_code = 401
    · rw [request_401_refreshed method path params s r rest hs hr]
    · rw [request_non401 method path params true s r rest hs hr]

theorem len_request (method path : String) (params : Option Params) (refreshed : Bool) (s : St) :
    (request method path params refreshed s).2.calls.length ≤ s.calls.length + 3 := by
  cases refreshed with
  | true =>
    rw [calls_request_true]
    simp
  | false =>
    cases hs : s.script with
    | nil =>
      rw [request_nil method path params false s hs]
      simp
    | cons r rest =>
      by_cases hr : r.status_code = 401
      · rcases hrf : refresh_token'
            { s with script := rest,
                     calls := s.calls ++ [apiCall method path params s.client.token] } with
          ⟨res, s2⟩
        have h2 : s2.calls.length = s.calls.length + 2 := by
          have h3 := calls_refresh
            { s with script := rest,
                     calls := s.calls ++ [apiCall method path params s.client.token] }
          rw [hrf] at h3
          simp at h3
          simp [h3]
        cases res with
        | exn e =>
          rw [request_401_refresh_exn method path params s s2 r rest e hs hr hrf]
          simp
          all_goals omega
        | ok u =>
          rw [request_401_refresh_ok method path params s s2 r rest u hs hr hrf]
          rw [calls_request_true]
          simp
          all_goals omega
      · rw [request_non401 method path params false s r rest hs hr]
        simp

theorem calls_download_true_none (url : Option String) (s : St) :
    (download url true none s).2.calls = s.calls ++ [downloadCall url s.client.token] := by
  cases hs : s.script with
  | nil => rw [download_nil url true none s hs]
  | cons r rest =>
    by_cases hr1 : r.status_code = 401
    · rw [download_401_refreshed url none s r rest hs hr1]
    · by_cases hr3 : r.status_code = 403
      · rw [download_403_nofid url true s r rest hs hr3]
      · rw [download_plain url true none s r rest hs hr1 hr3]

theorem len_download_none (url : Option String) (refreshed : Bool) (s : St) :
    (download url refreshed none s).2.calls.length ≤ s.calls.length + 3 := by
  cases refreshed with
  | true =>
    rw [calls_download_true_none]
    simp
  | false =>
    cases hs : s.script with
    | nil =>
      rw [download_nil url false none s hs]
      simp
    | cons r rest =>
      by_cases hr1 : r.status_code = 401
      · rcases hrf : refresh_token'
            { s with script := rest,
                     calls := s.calls ++ [downloadCall url s.client.token] } with
          ⟨res, s2⟩
        have h2 : s2.calls.length = s.calls.length + 2 := by
          have h3 := calls_refresh
            { s with script := rest,
                     calls := s.calls ++ [downloadCall url s.client.token] }
          rw [hrf] at h3
          simp at h3
          simp [h3]
        cases res with
        | exn e =>
          rw [download_401_refresh_exn url none s s2 r rest e hs hr1 hrf]
          simp
          all_goals omega
        | ok u =>
          rw [download_401_refresh_ok url none s s2 r rest u hs hr1 hrf]
          rw [calls_download_true_none]
          simp
          all_goals omega
      · by_cases hr3 : r.status_code = 403
        · rw [download_403_nofid url false s r rest hs hr3]
          simp
        · rw [download_plain url false none s r rest hs hr1 hr3]
          simp

theorem len_download (url : Option String) (refreshed : Bool) (file_id : Option String) (s : St) :
    (download url refreshed file_id s).2.calls.length ≤ s.calls.length + 7 := by
  cases file_id with
  | none =>
    have h1 := len_download_none url refreshed s
    omega
  | some fid =>
    cases hs : s.script with
    | nil =>
      rw [download_nil url refreshed (some fid) s hs]
      simp
    | cons r rest =>
      by_cases hr1 : r.status_code = 401
      · cases refreshed with
        | true =>
          rw [download_401_refreshed url (some fid) s r rest hs hr1]
          simp
        | false =>
          rcases hrf : refresh_token'
              { s with script := rest,
                       calls := s.calls ++ [downloadCall url s.client.token] } with
            ⟨res, s2⟩
          have h2 : s2.calls.length = s.calls.length + 2 := by
            have h3 := calls_refresh
              { s with script := rest,
                       calls := s.calls ++ [downloadCall url s.client.token] }
            rw [hrf] at h3
            simp at h3
            simp [h3]
          cases res with
          | exn e =>
            rw [download_401_refresh_exn url (some fid) s s2 r rest e hs hr1 hrf]
            simp
            all_goals omega
          | ok u =>
            rw [download_401_refresh_ok url (some fid) s s2 r rest u hs hr1 hrf]
            rw [calls_download_true_none]
            simp
            all_goals omega
      · by_cases hr3 : r.status_code = 403
        · rcases hgf : get_file fid
              { s with script := rest,
                       calls := s.calls ++ [downloadCall url s.client.token] } with
            ⟨res, s2⟩
          have h2 : s2.calls.length ≤ s.calls.length + 4 := by
            have h3 : (get_file fid
                { s with script := rest,
                         calls := s.calls ++ [downloadCall url s.client.token] }).2.calls.length ≤
                (s.calls ++ [downloadCall url s.client.token]).length + 3 :=
              len_request "get" ("files/" ++ fid) none false _
            rw [hgf] at h3
            simp at h3
            omega
          cases res with
          | exn e =>
            rw [download_403_fid_exn url refreshed fid s s2 r rest e hs hr3 hgf]
            simp
            all_goals omega
          | ok d =>
            by_cases hd : d.status_code = 200
            · rw [download_403_fid_ok url refreshed fid s s2 r d rest hs hr3 hgf hd]
              have h4 := len_download_none d.body.downloadUrl refreshed s2
              omega
            · rw [download_403_fid_err url refreshed fid s s2 r d rest hs hr3 hgf hd]
              simp
              all_goals omega
        · rw [download_plain url refreshed (some fid) s r rest hs hr1 hr3]
          simp

theorem no401_of_suffix {l l' : List HttpResponse} (h : no401 l) (hsuf : ∃ t, l = t ++ l') :
    no401 l' := by
  obtain ⟨t, rfl⟩ := hsuf
  exact fun r hr => h r (List.mem_append_right t hr)

theorem no401_tail {r : HttpResponse} {rest : List HttpResponse} {l : List HttpResponse}
    (hl : l = r :: rest) (h : no401 l) : no401 rest := by
  subst hl
  exact fun x hx => h x (List.mem_cons_of_mem r hx)

theorem client_request_no401 (method path : String) (params : Option Params) (refreshed : Bool)
    (s : St) (h : no401 s.script) :
    (request method path params refreshed s).2.client = s.client := by
  cases hs : s.script with
  | nil => rw [request_nil method path params refreshed s hs]
  | cons r rest =>
    have hr : r.status_code ≠ 401 := h r (by rw [hs]; exact List.mem_cons_self r rest)
    rw [request_non401 method path params refreshed s r rest hs hr]

theorem client_download_none_no401 (url : Option String) (refreshed : Bool) (s : St)
    (h : no401 s.script) :
    (download url refreshed none s).2.client = s.client := by
  cases hs : s.script with
  | nil => rw [download_nil url refreshed none s hs]
  | cons r rest =>
    have hr1 : r.status_code ≠ 401 := h r (by rw [hs]; exact List.mem_cons_self r rest)
    by_cases hr3 : r.status_code = 403
    · rw [download_403_nofid url refreshed s r rest hs hr3]
    · rw [download_plain url refreshed none s r rest hs hr1 hr3]

theorem client_download_no401 (url : Option String) (refreshed : Bool)
    (file_id : Option String) (s : St) (h : no401 s.script) :
    (download url refreshed file_id s).2.client = s.client := by
  cases file_id with
  | none => exact client_download_none_no401 url refreshed s h
  | some fid =>
    cases hs : s.script with
    | nil => rw [download_nil url refreshed (some fid) s hs]
    | cons r rest =>
      have hr1 : r.status_code ≠ 401 := h r (by rw [hs]; exact List.mem_cons_self r rest)
      by_cases hr3 : r.status_code = 403
      · rcases hgf : get_file fid
            { s with script := rest,
                     calls := s.calls ++ [downloadCall url s.client.token] } with
          ⟨res, s2⟩
        have hrest : no401 rest := no401_tail hs h
        have hc2 : s2.client = s.client := by
          have h3 : (get_file fid
              { s with script := rest,
                       calls := s.calls ++ [downloadCall url s.client.token] }).2.client =
              s.client :=
            client_request_no401 "get" ("files/" ++ fid) none false _ hrest
          rwa [hgf] at h3
        have hs2 : no401 s2.script := by
          have h4 : Evolves
              { s with script := rest,
                       calls := s.calls ++ [downloadCall url s.client.token] }
              (get_file fid
                { s with script := rest,
                         calls := s.calls ++ [downloadCall url s.client.token] }).2 :=
            evolves_request "get" ("files/" ++ fid) none false _
          rw [hgf] at h4
          exact no401_of_suffix hrest h4.scriptShrinks
        cases res with
        | exn e =>
          rw [download_403_fid_exn url refreshed fid s s2 r rest e hs hr3 hgf]
          exact hc2
        | ok d =>
          by_cases hd : d.status_code = 200
          · rw [download_403_fid_ok url refreshed fid s s2 r d rest hs hr3 hgf hd]
            rw [client_download_none_no401 d.body.downloadUrl refreshed s2 hs2]
            exact hc2
          · rw [download_403_fid_err url refreshed fid s s2 r d rest hs hr3 hgf hd]
            exact hc2
      · rw [download_plain url refreshed (some fid) s r rest hs hr1 hr3]

theorem evolves_user_gen (count : Nat) (pt : Option String) (fuel : Nat) (s : St) :
    Evolves s (get_user_files_generator_from count pt fuel s).2 := by
  induction fuel generalizing pt s with
  | zero => exact evolves_refl s
  | succ n ih =>
    rcases hgu : get_user_files count pt s with ⟨res, s1⟩
    have h1 : Evolves s s1 := by
      have h2 : Evolves s (get_user_files count pt s).2 :=
        evolves_request "get" "files" (some (userFilesParams count pt)) false s
      rwa [hgu] at h2
    simp only [get_user_files_generator_from, hgu]
    cases res with
    | exn e => exact h1
    | ok resp =>
      by_cases hf : pyFalsy resp.body.nextPageToken = true
      · simp only [hf, if_true]
        exact h1
      · rw [Bool.not_eq_true] at hf
        rcases hrec : get_user_files_generator_from count resp.body.nextPageToken n s1 with
          ⟨res2, s2⟩
        have h2 : Evolves s1 s2 := by
          have h3 := ih resp.body.nextPageToken s1
          rwa [hrec] at h3
        cases res2 with
        | exn e =>
          simp [hf, hrec]
          exact evolves_trans h1 h2
        | ok rest2 =>
          simp [hf, hrec]
          exact evolves_trans h1 h2

theorem evolves_comments_gen (fid : String) (count : Nat) (pt : Option String) (fuel : Nat)
    (s : St) :
    Evolves s (get_file_comments_generator_from fid count pt fuel s).2 := by
  induction fuel generalizing pt s with
  | zero => exact evolves_refl s
  | succ n ih =>
    rcases hgu : get_file_comments fid count pt s with ⟨res, s1⟩
    have h1 : Evolves s s1 := by
      have h2 : Evolves s (get_file_comments fid count pt s).2 :=
        evolves_request "get" ("files/" ++ fid ++ "/comments")
          (some (commentsParams count pt)) false s
      rwa [hgu] at h2
    simp only [get_file_comments_generator_from, hgu]
    cases res with
    | exn e => exact h1
    | ok resp =>
      by_cases hf : pyFalsy resp.body.nextPageToken = true
      · simp only [hf, if_true]
        exact h1
      · rw [Bool.not_eq_true] at hf
        rcases hrec : get_file_comments_generator_from fid count resp.body.nextPageToken n s1 with
          ⟨res2, s2⟩
        have h2 : Evolves s1 s2 := by
          have h3 := ih resp.body.nextPageToken s1
          rwa [hrec] at h3
        cases res2 with
        | exn e =>
          simp [hf, hrec]
          exact evolves_trans h1 h2
        | ok rest2 =>
          simp [hf, hrec]
          exact evolves_trans h1 h2

theorem client_user_gen_no401 (count : Nat) (pt : Option String) (fuel : Nat) (s : St)
    (h : no401 s.script) :
    (get_user_files_generator_from count pt fuel s).2.client = s.client := by
  induction fuel generalizing pt s with
  | zero => rfl
  | succ n ih =>
    rcases hgu : get_user_files count pt s with ⟨res, s1⟩
    have h1 : s1.client = s.client := by
      have h2 : (get_user_files count pt s).2.client = s.client :=
        client_request_no401 "get" "files" (some (userFilesParams count pt)) false s h
      rwa [hgu] at h2
    have hsfx : no401 s1.script := by
      have h2 : Evolves s (get_user_files count pt s).2 :=
        evolves_request "get" "files" (some (userFilesParams count pt)) false s
      rw [hgu] at h2
      exact no401_of_suffix h h2.scriptShrinks
    simp only [get_user_files_generator_from, hgu]
    cases res with
    | exn e => exact h1
    | ok resp =>
      by_cases hf : pyFalsy resp.body.nextPageToken = true
      · simp only [hf, if_true]
        exact h1
      · rw [Bool.not_eq_true] at hf
        rcases hrec : get_user_files_generator_from count resp.body.nextPageToken n s1 with
          ⟨res2, s2⟩
        have h2 : s2.client = s1.client := by
          have h3 := ih resp.body.nextPageToken s1 hsfx
          rwa [hrec] at h3
        cases res2 with
        | exn e =>
          simp [hf, hrec]
          exact h2.trans h1
        | ok rest2 =>
          simp [hf, hrec]
          exact h2.trans h1

theorem client_comments_gen_no401 (fid : String) (count : Nat) (pt : Option String) (fuel : Nat)
    (s : St) (h : no401 s.script) :
    (get_file_comments_generator_from fid count pt fuel s).2.client = s.client := by
  induction fuel generalizing pt s with
  | zero => rfl
  | succ n ih =>
    rcases hgu : get_file_comments fid count pt s with ⟨res, s1⟩
    have h1 : s1.client = s.client := by
      have h2 : (get_file_comments fid count pt s).2.client = s.client :=
        client_request_no401 "get" ("files/" ++ fid ++ "/comments")
          (some (commentsParams count pt)) false s h
      rwa [hgu] at h2
    have hsfx : no401 s1.script := by
      have h2 : Evolves s (get_file_comments fid count pt s).2 :=
        evolves_request "get" ("files/" ++ fid ++ "/comments")
          (some (commentsParams count pt)) false s
      rw [hgu] at h2
      exact no401_of_suffix h h2.scriptShrinks
    simp only [get_file_comments_generator_from, hgu]
    cases res with
    | exn e => exact h1
    | ok resp =>
      by_cases hf : pyFalsy resp.body.nextPageToken = true
      · simp only [hf, if_true]
        exact h1
      · rw [Bool.not_eq_true] at hf
        rcases hrec : get_file_comments_generator_from fid count resp.body.nextPageToken n s1 with
          ⟨res2, s2⟩
        have h2 : s2.client = s1.client := by
          have h3 := ih resp.body.nextPageToken s1 hsfx
          rwa [hrec] at h3
        cases res2 with
        | exn e =>
          simp [hf, hrec]
          exact h2.trans h1
        | ok rest2 =>
          simp [hf, hrec]
          exact h2.trans h1

theorem user_gen_pages (pages : List (List String × Option String)) (count : Nat)
    (pt : Option String) (fuel : Nat) (s : St) (rest : List HttpResponse)
    (hok : chainOkb pages = true)
    (hs : s.script = pages.map pageResp ++ rest)
    (hfuel : pages.length ≤ fuel) :
    get_user_files_generator_from count pt fuel s =
      (.ok (pagesItems pages),
        { s with script := rest,
                 calls := s.calls ++ userFetchCalls s.client.token count pt pages }) := by
  induction pages generalizing pt fuel s with
  | nil => simp [chainOkb] at hok
  | cons p tl ih =>
    obtain ⟨its, ntok⟩ := p
    cases fuel with
    | zero => simp at hfuel
    | succ n =>
      have hs1 : s.script = pageResp (its, ntok) :: (tl.map pageResp ++ rest) := by
        simp [hs]
      have hstat : (pageResp (its, ntok)).status_code ≠ 401 := by
        simp [pageResp]
      have hresp : get_user_files count pt s = (.ok (pageResp (its, ntok)),
          { s with script := tl.map pageResp ++ rest,
                   calls := s.calls ++
                     [apiCall "get" "files" (some (userFilesParams count pt)) s.client.token] }) :=
        request_non401 "get" "files" (some (userFilesParams count pt)) false s
          (pageResp (its, ntok)) (tl.map pageResp ++ rest) hs1 hstat
      simp only [get_user_files_generator_from, hresp]
      cases tl with
      | nil =>
        have hf : pyFalsy ntok = true := by simpa [chainOkb] using hok
        simp [pageResp, hf, pagesItems, userFetchCalls, userFilesCall]
      | cons q tl2 =>
        have hnf : pyFalsy ntok = false := by
          have h1 := hok
          simp only [chainOkb, Bool.and_eq_true, Bool.not_eq_true'] at h1
          exact h1.1
        have hok2 : chainOkb (q :: tl2) = true := by
          have h1 := hok
          simp only [chainOkb, Bool.and_eq_true, Bool.not_eq_true'] at h1
          exact h1.2
        have hrec := ih ntok n
          { s with script := (q :: tl2).map pageResp ++ rest,
                   calls := s.calls ++
                     [apiCall "get" "files" (some (userFilesParams count pt)) s.client.token] }
          hok2 (by simp) (by simpa using hfuel)
        simp [pageResp, pagesItems, userFetchCalls, userFilesCall] at hrec
        simp [pageResp, hnf, hrec, pagesItems, userFetchCalls, userFilesCall]

theorem comments_gen_pages (fid : String) (pages : List (List String × Option String))
    (count : Nat) (pt : Option String) (fuel : Nat) (s : St) (rest : List HttpResponse)
    (hok : chainOkb pages = true)
    (hs : s.script = pages.map pageResp ++ rest)
    (hfuel : pages.length ≤ fuel) :
    get_file_comments_generator_from fid count pt fuel s =
      (.ok (pagesItems pages),
        { s with script := rest,
                 calls := s.calls ++ commentsFetchCalls s.client.token fid count pt pages }) := by
  induction pages generalizing pt fuel s with
  | nil => simp [chainOkb] at hok
  | cons p tl ih =>
    obtain ⟨its, ntok⟩ := p
    cases fuel with
    | zero => simp at hfuel
    | succ n =>
      have hs1 : s.script = pageResp (its, ntok) :: (tl.map pageResp ++ rest) := by
        simp [hs]
      have hstat : (pageResp (its, ntok)).status_code ≠ 401 := by
        simp [pageResp]
      have hresp : get_file_comments fid count pt s = (.ok (pageResp (its, ntok)),
          { s with script := tl.map pageResp ++ rest,
                   calls := s.calls ++
                     [apiCall "get" ("files/" ++ fid ++ "/comments")
                       (some (commentsParams count pt)) s.client.token] }) :=
        request_non401 "get" ("files/" ++ fid ++ "/comments") (some (commentsParams count pt))
          false s (pageResp (its, ntok)) (tl.map pageResp ++ rest) hs1 hstat
      simp only [get_file_comments_generator_from, hresp]
      cases tl with
      | nil =>
        have hf : pyFalsy ntok = true := by simpa [chainOkb] using hok
        simp [pageResp, hf, pagesItems, commentsFetchCalls, commentsCall]
      | cons q tl2 =>
        have hnf : pyFalsy ntok = false := by
          have h1 := hok
          simp only [chainOkb, Bool.and_eq_true, Bool.not_eq_true'] at h1
          exact h1.1
        have hok2 : chainOkb (q :: tl2) = true := by
          have h1 := hok
          simp only [chainOkb, Bool.and_eq_true, Bool.not_eq_true'] at h1
          exact h1.2
        have hrec := ih ntok n
          { s with script := (q :: tl2).map pageResp ++ rest,
                   calls := s.calls ++
                     [apiCall "get" ("files/" ++ fid ++ "/comments")
                       (some (commentsParams count pt)) s.client.token] }
          hok2 (by simp) (by simpa using hfuel)
        simp [pageResp, pagesItems, commentsFetchCalls, commentsCall] at hrec
        simp [pageResp, hnf, hrec, pagesItems, commentsFetchCalls, commentsCall]

theorem calls_cons_append (l : List HttpCall) (c : HttpCall) (t : List HttpCall) :
    l ++ [c] ++ t = l ++ c :: t := by simp

theorem download_first_call (url : Option String) (refreshed : Bool) (file_id : Option String)
    (s : St) :
    ∃ t, (download url refreshed file_id s).2.calls =
      s.calls ++ downloadCall url s.client.token :: t := by
  cases hs : s.script with
  | nil =>
    rw [download_nil url refreshed file_id s hs]
    exact ⟨[], rfl⟩
  | cons r rest =>
    by_cases hr1 : r.status_code = 401
    · cases refreshed with
      | true =>
        rw [download_401_refreshed url file_id s r rest hs hr1]
        exact ⟨[], rfl⟩
      | false =>
        rcases hrf : refresh_token'
            { s with script := rest,
                     calls := s.calls ++ [downloadCall url s.client.token] } with
          ⟨res, s2⟩
        have h2 : ∃ t1, s2.calls = (s.calls ++ [downloadCall url s.client.token]) ++ t1 := by
          have h3 := evolves_refresh
            { s with script := rest,
                     calls := s.calls ++ [downloadCall url s.client.token] }
          rw [hrf] at h3
          exact h3.callsGrow
        obtain ⟨t1, ht1⟩ := h2
        cases res with
        | exn e =>
          rw [download_401_refresh_exn url file_id s s2 r rest e hs hr1 hrf]
          exact ⟨t1, by rw [ht1, calls_cons_append]⟩
        | ok u =>
          rw [download_401_refresh_ok url file_id s s2 r rest u hs hr1 hrf]
          have h4 := (evolves_download_none url true s2).callsGrow
          obtain ⟨t2, ht2⟩ := h4
          refine ⟨t1 ++ t2, ?_⟩
          rw [ht2, ht1]
          simp
    · by_cases hr3 : r.status_code = 403
      · cases file_id with
        | none =>
          rw [download_403_nofid url refreshed s r rest hs hr3]
          exact ⟨[], rfl⟩
        | some fid =>
          rcases hgf : get_file fid
              { s with script := rest,
                       calls := s.calls ++ [downloadCall url s.client.token] } with
            ⟨res, s2⟩
          have h2 : ∃ t1, s2.calls = (s.calls ++ [downloadCall url s.client.token]) ++ t1 := by
            have h3 : Evolves
                { s with script := rest,
                         calls := s.calls ++ [downloadCall url s.client.token] }
                (get_file fid
                  { s with script := rest,
                           calls := s.calls ++ [downloadCall url s.client.token] }).2 :=
              evolves_request "get" ("files/" ++ fid) none false _
            rw [hgf] at h3
            exact h3.callsGrow
          obtain ⟨t1, ht1⟩ := h2
          cases res with
          | exn e =>
            rw [download_403_fid_exn url refreshed fid s s2 r rest e hs hr3 hgf]
            exact ⟨t1, by rw [ht1, calls_cons_append]⟩
          | ok d =>
            by_cases hd : d.status_code = 200
            · rw [download_403_fid_ok url refreshed fid s s2 r d rest hs hr3 hgf hd]
              have h4 := (evolves_download_none d.body.downloadUrl refreshed s2).callsGrow
              obtain ⟨t2, ht2⟩ := h4
              refine ⟨t1 ++ t2, ?_⟩
              rw [ht2, ht1]
              simp
            · rw [download_403_fid_err url refreshed fid s s2 r d rest hs hr3 hgf hd]
              exact ⟨t1, by rw [ht1, calls_cons_append]⟩
      · rw [download_plain url refreshed file_id s r rest hs hr1 hr3]
        exact ⟨[], rfl⟩

theorem client_request_true (method path : String) (params : Option Params) (s : St) :
    (request method path params true s).2.client = s.client := by
  cases hs : s.script with
  | nil => rw [request_nil method path params true s hs]
  | cons r rest =>
    by_cases hr : r.status_code = 401
    · rw [request_401_refreshed method path params s r rest hs hr]
    · rw [request_non401 method path params true s r rest hs hr]

theorem client_download_true_none (url : Option String) (s : St) :
    (download url true none s).2.client = s.client := by
  cases hs : s.script with
  | nil => rw [download_nil url true none s hs]
  | cons r rest =>
    by_cases hr1 : r.status_code = 401
    · rw [download_401_refreshed url none s r rest hs hr1]
    · by_cases hr3 : r.status_code = 403
      · rw [download_403_nofid url true s r rest hs hr3]
      · rw [download_plain url true none s r rest hs hr1 hr3]

/-- C1: when the first attempt of `request` returns 401 and the retry after a
successful token refresh returns 200, the caller receives the 200 response,
the stored access token is replaced by the `access_token` field of the
refresh response, and the refresh callback (when configured) is invoked
exactly once with (new access token, refresh token); `get_file`,
`get_user_files` and `get_file_comments` are direct delegations to
`request`, so the same behaviour holds for every public method built on
it. -/
theorem C1_request_refresh_retry_delivers_200
    (method path : String) (params : Option Params) (s : St)
    (a b c : HttpResponse) (rest : List HttpResponse) (t2 : String)
    (hscript : s.script = [a, b, c] ++ rest)
    (h401 : a.status_code = 401)
    (htok : b.body.access_token = some t2)
    (h200 : c.status_code = 200) :
    (request method path params false s).1 = .ok c ∧
    (request method path params false s).2.client.token = t2 ∧
    ((request method path params false s).2.callbackCalls =
      if s.client.refresh_callback then s.callbackCalls ++ [(t2, s.client.refresh_token)]
      else s.callbackCalls) ∧
    (∀ fid s0, get_file fid s0 = request "get" ("files/" ++ fid) none false s0) ∧
    (∀ count page_token s0, get_user_files count page_token s0 =
      request "get" "files" (some (userFilesParams count page_token)) false s0) ∧
    (∀ fid count page_token s0, get_file_comments fid count page_token s0 =
      request "get" ("files/" ++ fid ++ "/comments")
        (some (commentsParams count page_token)) false s0) := by
  refine ⟨?_, ?_, ?_, fun fid s0 => rfl, fun count pt s0 => rfl, fun fid count pt s0 => rfl⟩ <;>
    cases hcb : s.client.refresh_callback <;>
      simp [request, http, refresh_token', token_header, hscript, h401, htok, h200, hcb]

/-- C1 witness: the concrete 401-refresh-200 run on a client with a
configured callback. -/
theorem C1_witness :
    sC1.script = [resp401, respRefresh, resp200] ++ [] ∧
    resp401.status_code = 401 ∧
    respRefresh.body.access_token = some "tok1" ∧
    resp200.status_code = 200 ∧
    ((request "get" "files" none false sC1).1 = .ok resp200 ∧
     (request "get" "files" none false sC1).2.client.token = "tok1" ∧
     ((request "get" "files" none false sC1).2.callbackCalls =
       if sC1.client.refresh_callback then sC1.callbackCalls ++ [("tok1", sC1.client.refresh_token)]
       else sC1.callbackCalls) ∧
     (∀ fid s0, get_file fid s0 = request "get" ("files/" ++ fid) none false s0) ∧
     (∀ count page_token s0, get_user_files count page_token s0 =
       request "get" "files" (some (userFilesParams count page_token)) false s0) ∧
     (∀ fid count page_token s0, get_file_comments fid count page_token s0 =
       request "get" ("files/" ++ fid ++ "/comments")
         (some (commentsParams count page_token)) false s0)) :=
  ⟨rfl, rfl, rfl, rfl,
    C1_request_refresh_retry_delivers_200 "get" "files" none sC1
      resp401 respRefresh resp200 [] "tok1" rfl rfl rfl rfl⟩

/-- C2: when both API attempts of `request` return 401 (with a successful
refresh in between), exactly two API network calls occur (the original and
one retry), one refresh POST occurs, the second 401 response is returned
to the caller as-is, and no exception is raised (the result is `ok`). -/
theorem C2_persistent_401_two_api_calls
    (method path : String) (params : Option Params) (s : St)
    (a b c : HttpResponse) (rest : List HttpResponse) (t2 : String)
    (hscript : s.script = [a, b, c] ++ rest)
    (h401a : a.status_code = 401)
    (htok : b.body.access_token = some t2)
    (h401c : c.status_code = 401) :
    request method path params false s = (.ok c,
      { client := { s.client with token := t2 },
        script := rest,
        calls := s.calls ++ [apiCall method path params s.client.token, refreshCall s.client,
          apiCall method path none t2],
        callbackCalls := if s.client.refresh_callback then
            s.callbackCalls ++ [(t2, s.client.refresh_token)]
          else s.callbackCalls,
        errors := s.errors }) ∧
    apiCount (request method path params false s).2.calls = apiCount s.calls + 2 ∧
    postCount (request method path params false s).2.calls = postCount s.calls + 1 := by
  have hmain : request method path params false s = (.ok c,
      { client := { s.client with token := t2 },
        script := rest,
        calls := s.calls ++ [apiCall method path params s.client.token, refreshCall s.client,
          apiCall method path none t2],
        callbackCalls := if s.client.refresh_callback then
            s.callbackCalls ++ [(t2, s.client.refresh_token)]
          else s.callbackCalls,
        errors := s.errors }) := by
    cases hcb : s.client.refresh_callback <;>
      simp [request, http, refresh_token', token_header, hscript, h401a, htok, h401c, hcb,
        apiCall, refreshCall]
  refine ⟨hmain, ?_, ?_⟩ <;> rw [hmain] <;>
    simp [apiCount, postCount, isPost, List.filter_append, apiCall, refreshCall]

/-- C2 witness: the concrete always-401 run. -/
theorem C2_witness :
    sC2.script = [resp401, respRefresh, resp401] ++ [] ∧
    resp401.status_code = 401 ∧
    respRefresh.body.access_token = some "tok1" ∧
    resp401.status_code = 401 ∧
    (request "get" "files" none false sC2 = (.ok resp401,
      { client := { sC2.client with token := "tok1" },
        script := [],
        calls := sC2.calls ++ [apiCall "get" "files" none sC2.client.token, refreshCall sC2.client,
          apiCall "get" "files" none "tok1"],
        callbackCalls := if sC2.client.refresh_callback then
            sC2.callbackCalls ++ [("tok1", sC2.client.refresh_token)]
          else sC2.callbackCalls,
        errors := sC2.errors }) ∧
     apiCount (request "get" "files" none false sC2).2.calls = apiCount sC2.calls + 2 ∧
     postCount (request "get" "files" none false sC2).2.calls = postCount sC2.calls + 1) :=
  ⟨rfl, rfl, rfl, rfl,
    C2_persistent_401_two_api_calls "get" "files" none sC2
      resp401 respRefresh resp401 [] "tok1" rfl rfl rfl rfl⟩

/-- C3: counter to the claim, the retry after a token refresh does NOT
repeat the original query parameters: for `get_user_files 7 (some "pt")`
against a 401-then-200 server, the first API call carries the listing
params while the retried call carries `params = none` (the source's
`self.__request(method, path, refreshed=True)` omits `params`). -/
theorem C3_retry_drops_params :
    (get_user_files 7 (some "pt") sC3).2.calls =
      [apiCall "get" "files" (some (userFilesParams 7 (some "pt"))) "tok0",
       refreshCall demoClient,
       apiCall "get" "files" none "tok1"] ∧
    (some (userFilesParams 7 (some "pt")) : Option Params) ≠ none := by
  constructor
  · simp [get_user_files, request, http, refresh_token', token_header, sC3, demoClient,
      resp401, respRefresh, resp200, apiCall, refreshCall]
  · simp

/-- C4: when `download` hits a 403 with a non-null `file_id` and
`get_file` returns 200 with a `downloadUrl`, `download` retries exactly
once against the new URL, passing `file_id = none` and the original
`refreshed` flag unchanged, and returns the result of that retried
download; the retried GET against the new URL is issued next in the
trace. -/
theorem C4_download_expired_link_retry
    (url : Option String) (refreshed : Bool) (fid newUrl : String) (s s2 : St)
    (r d : HttpResponse) (rest : List HttpResponse)
    (hs : s.script = r :: rest)
    (hr3 : r.status_code = 403)
    (hgf : get_file fid
      { s with script := rest,
               calls := s.calls ++ [downloadCall url s.client.token] } = (.ok d, s2))
    (hd : d.status_code = 200)
    (hurl : d.body.downloadUrl = some newUrl) :
    download url refreshed (some fid) s = download (some newUrl) refreshed none s2 ∧
    (∃ t, (download url refreshed (some fid) s).2.calls =
      s2.calls ++ downloadCall (some newUrl) s2.client.token :: t) := by
  have hmain := download_403_fid_ok url refreshed fid s s2 r d rest hs hr3 hgf hd
  rw [hurl] at hmain
  refine ⟨hmain, ?_⟩
  rw [hmain]
  exact download_first_call (some newUrl) refreshed none s2

/-- C4 witness: the concrete expired-link recovery run. -/
theorem C4_witness :
    sC4.script = resp403 :: [fileDescOK, resp200] ∧
    resp403.status_code = 403 ∧
    get_file "f1"
      { sC4 with script := [fileDescOK, resp200],
                 calls := sC4.calls ++ [downloadCall (some "https://old") sC4.client.token] } =
      (.ok fileDescOK,
        { client := demoClient, script := [resp200],
          calls := [downloadCall (some "https://old") "tok0",
            apiCall "get" ("files/" ++ "f1") none "tok0"],
          callbackCalls := [], errors := [] }) ∧
    fileDescOK.status_code = 200 ∧
    fileDescOK.body.downloadUrl = some "https://new" ∧
    (download (some "https://old") false (some "f1") sC4 =
      download (some "https://new") false none
        { client := demoClient, script := [resp200],
          calls := [downloadCall (some "https://old") "tok0",
            apiCall "get" ("files/" ++ "f1") none "tok0"],
          callbackCalls := [], errors := [] } ∧
     (∃ t, (download (some "https://old") false (some "f1") sC4).2.calls =
       ({ client := demoClient, script := [resp200],
          calls := [downloadCall (some "https://old") "tok0",
            apiCall "get" ("files/" ++ "f1") none "tok0"],
          callbackCalls := [], errors := [] } : St).calls ++
         downloadCall (some "https://new")
           ({ client := demoClient, script := [resp200],
              calls := [downloadCall (some "https://old") "tok0",
                apiCall "get" ("files/" ++ "f1") none "tok0"],
              callbackCalls := [], errors := [] } : St).client.token :: t)) := by
  have hgf : get_file "f1"
      { sC4 with script := [fileDescOK, resp200],
                 calls := sC4.calls ++ [downloadCall (some "https://old") sC4.client.token] } =
      (.ok fileDescOK,
        { client := demoClient, script := [resp200],
          calls := [downloadCall (some "https://old") "tok0",
            apiCall "get" ("files/" ++ "f1") none "tok0"],
          callbackCalls := [], errors := [] }) := by
    simp [get_file, request, http, token_header, sC4, demoClient, fileDescOK, resp200,
      apiCall, downloadCall]
  exact ⟨rfl, rfl, hgf, rfl, rfl,
    C4_download_expired_link_retry (some "https://old") false "f1" "https://new" sC4 _
      resp403 fileDescOK [fileDescOK, resp200] rfl rfl hgf rfl rfl⟩

/-- C5: when `download` hits a 403 with a non-null `file_id` and
`get_file` returns a non-200 status, `download` appends exactly one
error-level log message and returns the original 403 response with no
further download attempt (the final trace equals the trace after the
description fetch). -/
theorem C5_failed_recovery_logs_and_returns_403
    (url : Option String) (refreshed : Bool) (fid : String) (s s2 : St)
    (r d : HttpResponse) (rest : List HttpResponse)
    (hs : s.script = r :: rest)
    (hr3 : r.status_code = 403)
    (hgf : get_file fid
      { s with script := rest,
               calls := s.calls ++ [downloadCall url s.client.token] } = (.ok d, s2))
    (hd : d.status_code ≠ 200) :
    download url refreshed (some fid) s =
      (.ok r, { s2 with errors := s2.errors ++ [descErrMsg fid d] }) ∧
    ({ s2 with errors := s2.errors ++ [descErrMsg fid d] } : St).calls = s2.calls :=
  ⟨download_403_fid_err url refreshed fid s s2 r d rest hs hr3 hgf hd, rfl⟩

/-- C5 witness: the concrete failed-recovery run with a 404 file
description. -/
theorem C5_witness :
    sC5.script = resp403 :: [fileDesc404] ∧
    resp403.status_code = 403 ∧
    get_file "f1"
      { sC5 with script := [fileDesc404],
                 calls := sC5.calls ++ [downloadCall (some "https://old") sC5.client.token] } =
      (.ok fileDesc404,
        { client := demoClient, script := [],
          calls := [downloadCall (some "https://old") "tok0",
            apiCall "get" ("files/" ++ "f1") none "tok0"],
          callbackCalls := [], errors := [] }) ∧
    fileDesc404.status_code ≠ 200 ∧
    (download (some "https://old") false (some "f1") sC5 =
      (.ok resp403,
        { client := demoClient, script := [],
          calls := [downloadCall (some "https://old") "tok0",
            apiCall "get" ("files/" ++ "f1") none "tok0"],
          callbackCalls := [], errors := [descErrMsg "f1" fileDesc404] }) ∧
     ({ client := demoClient, script := [],
        calls := [downloadCall (some "https://old") "tok0",
          apiCall "get" ("files/" ++ "f1") none "tok0"],
        callbackCalls := [], errors := [descErrMsg "f1" fileDesc404] } : St).calls =
       [downloadCall (some "https://old") "tok0",
        apiCall "get" ("files/" ++ "f1") none "tok0"]) := by
  have hgf : get_file "f1"
      { sC5 with script := [fileDesc404],
                 calls := sC5.calls ++ [downloadCall (some "https://old") sC5.client.token] } =
      (.ok fileDesc404,
        { client := demoClient, script := [],
          calls := [downloadCall (some "https://old") "tok0",
            apiCall "get" ("files/" ++ "f1") none "tok0"],
          callbackCalls := [], errors := [] }) := by
    simp [get_file, request, http, token_header, sC5, demoClient, fileDesc404,
      apiCall, downloadCall]
  exact ⟨rfl, rfl, hgf, by decide,
    C5_failed_recovery_logs_and_returns_403 (some "https://old") false "f1" sC5 _
      resp403 fileDesc404 [fileDesc404] rfl rfl hgf (by decide)⟩

/-- C6: counter to the claim, the retry of `download` after a token
refresh does NOT preserve `file_id`: for `download (some "u") false
(some "f1")` against a 401-refresh-403 server, the retried GET carries
`file_id = none` (the source's `self.download(url, refreshed=True)` omits
`file_id`), so the 403 on the retried attempt is returned as-is with no
`get_file` call and no recovery. -/
theorem C6_401_retry_drops_file_id :
    download (some "u") false (some "f1") sC6 =
      (.ok resp403,
        { client := { demoClient with token := "tok1" },
          script := [],
          calls := [downloadCall (some "u") "tok0", refreshCall demoClient,
            downloadCall (some "u") "tok1"],
          callbackCalls := [], errors := [] }) := by
  simp [download, http, refresh_token', token_header, sC6, demoClient, resp401, respRefresh,
    resp403, downloadCall, refreshCall]

/-- C7: over any well-formed page sequence (truthy `nextPageToken` on
every page but the last, falsy on the last), `get_user_files_generator`
and `get_file_comments_generator` yield each page's items in
page-then-item order, perform exactly one page fetch per page (each
advanced with the server's `nextPageToken`, starting from `None`), and
stop exactly at the falsy token, leaving the rest of the script
untouched. -/
theorem C7_generators_paginate
    (pagesU pagesC : List (List String × Option String)) (fidC : String)
    (countU countC fuelU fuelC : Nat) (sU sC : St) (restU restC : List HttpResponse)
    (hokU : chainOkb pagesU = true)
    (hsU : sU.script = pagesU.map pageResp ++ restU)
    (hfU : pagesU.length ≤ fuelU)
    (hokC : chainOkb pagesC = true)
    (hsC : sC.script = pagesC.map pageResp ++ restC)
    (hfC : pagesC.length ≤ fuelC) :
    get_user_files_generator countU fuelU sU =
      (.ok (pagesItems pagesU),
        { sU with script := restU,
                  calls := sU.calls ++ userFetchCalls sU.client.token countU none pagesU }) ∧
    get_file_comments_generator fidC countC fuelC sC =
      (.ok (pagesItems pagesC),
        { sC with script := restC,
                  calls := sC.calls ++
                    commentsFetchCalls sC.client.token fidC countC none pagesC }) :=
  ⟨user_gen_pages pagesU countU none fuelU sU restU hokU hsU hfU,
   comments_gen_pages fidC pagesC countC none fuelC sC restC hokC hsC hfC⟩

/-- C7 witness: three pages of sizes 2, 2, 1 yield five items in three
fetches, and a single empty page with no token yields an empty sequence in
one fetch. -/
theorem C7_witness :
    chainOkb pagesDemo = true ∧
    sC7U.script = pagesDemo.map pageResp ++ [] ∧
    pagesDemo.length ≤ 3 ∧
    chainOkb pagesEmpty = true ∧
    sC7C.script = pagesEmpty.map pageResp ++ [] ∧
    pagesEmpty.length ≤ 1 ∧
    (get_user_files_generator 100 3 sC7U =
      (.ok ["a", "b", "c", "d", "e"],
        { client := demoClient, script := [],
          calls := [userFilesCall "tok0" 100 none, userFilesCall "tok0" 100 (some "p2"),
            userFilesCall "tok0" 100 (some "p3")],
          callbackCalls := [], errors := [] }) ∧
     get_file_comments_generator "f" 100 1 sC7C =
      (.ok [],
        { client := demoClient, script := [],
          calls := [commentsCall "tok0" "f" 100 none],
          callbackCalls := [], errors := [] })) ∧
    pagesItems pagesDemo = ["a", "b", "c", "d", "e"] ∧
    (userFetchCalls "tok0" 100 none pagesDemo).length = 3 ∧
    pagesItems pagesEmpty = [] ∧
    (commentsFetchCalls "tok0" "f" 100 none pagesEmpty).length = 1 :=
  ⟨rfl, rfl, by decide, rfl, rfl, by decide,
    C7_generators_paginate pagesDemo pagesEmpty "f" 100 100 3 1 sC7U sC7C [] []
      rfl rfl (by decide) rfl rfl (by decide),
    rfl, rfl, rfl, rfl⟩

/-- C8 counterexample: a single `request` whose first attempt returns 401
issues three HTTP round-trips (original attempt, refresh POST, retry), so
the claim's bound of at most two round-trips in total is false. -/
theorem C8_three_round_trips_counterexample :
    (request "get" "files" none false sC8).2.calls.length = 3 ∧
    ¬ ((request "get" "files" none false sC8).2.calls.length ≤ sC8.calls.length + 2) := by
  have hmain : (request "get" "files" none false sC8).2.calls =
      [apiCall "get" "files" none "tok0", refreshCall demoClient,
        apiCall "get" "files" none "tok1"] := by
    simp [request, http, refresh_token', token_header, sC8, demoClient, resp401, respRefresh,
      resp200, apiCall, refreshCall]
  rw [hmain]
  simp [sC8]

/-- C8 amended: each request-based operation (`request`, `get_file`,
`get_user_files`, `get_file_comments`, and hence a single page fetch of a
generator) issues at most three HTTP round-trips (at most two API
attempts plus at most one refresh POST), and `download` issues at most
seven (the original GET, a `get_file` that may itself refresh and retry,
and a retried download that may itself refresh and retry); each axis
remains single-attempt. -/
theorem C8_amended_round_trip_bounds
    (method path : String) (params : Option Params) (refreshed : Bool)
    (url : Option String) (file_id : Option String) (fid : String)
    (count : Nat) (page_token : Option String) (s : St) :
    (request method path params refreshed s).2.calls.length ≤ s.calls.length + 3 ∧
    (get_file fid s).2.calls.length ≤ s.calls.length + 3 ∧
    (get_user_files count page_token s).2.calls.length ≤ s.calls.length + 3 ∧
    (get_file_comments fid count page_token s).2.calls.length ≤ s.calls.length + 3 ∧
    (download url refreshed file_id s).2.calls.length ≤ s.calls.length + 7 :=
  ⟨len_request method path params refreshed s,
   len_request "get" ("files/" ++ fid) none false s,
   len_request "get" "files" (some (userFilesParams count page_token)) false s,
   len_request "get" ("files/" ++ fid ++ "/comments") (some (commentsParams count page_token))
     false s,
   len_download url refreshed file_id s⟩

/-- C9: for every public operation, the client's `refresh_token`,
`client_id`, `client_secret` and `refresh_callback` fields are preserved;
the access token changes only if a refresh POST was appended to the trace;
a `request` with `refreshed = true` (and a `download` retry with
`refreshed = true, file_id = none`) never touches the client; and when no
response in the script has status 401, no operation changes the client at
all — the refresh routine runs only when an attempt reports 401 with
`refreshed = false`. -/
theorem C9_credentials_immutable
    (method path : String) (params : Option Params) (refreshed : Bool)
    (url : Option String) (file_id : Option String) (fid : String)
    (count fuel : Nat) (page_token : Option String) (s : St) :
    (sameCreds s.client (request method path params refreshed s).2.client ∧
     sameCreds s.client (get_file fid s).2.client ∧
     sameCreds s.client (get_user_files count page_token s).2.client ∧
     sameCreds s.client (get_file_comments fid count page_token s).2.client ∧
     sameCreds s.client (download url refreshed file_id s).2.client ∧
     sameCreds s.client (get_user_files_generator_from count page_token fuel s).2.client ∧
     sameCreds s.client (get_file_comments_generator_from fid count page_token fuel s).2.client ∧
     ((request method path params refreshed s).2.client.token = s.client.token ∨
       postCount s.calls < postCount (request method path params refreshed s).2.calls) ∧
     ((download url refreshed file_id s).2.client.token = s.client.token ∨
       postCount s.calls < postCount (download url refreshed file_id s).2.calls) ∧
     ((get_user_files_generator_from count page_token fuel s).2.client.token = s.client.token ∨
       postCount s.calls <
         postCount (get_user_files_generator_from count page_token fuel s).2.calls) ∧
     ((get_file_comments_generator_from fid count page_token fuel s).2.client.token =
         s.client.token ∨
       postCount s.calls <
         postCount (get_file_comments_generator_from fid count page_token fuel s).2.calls) ∧
     (request method path params true s).2.client = s.client ∧
     (download url true none s).2.client = s.client) ∧
    (no401 s.script →
      (request method path params refreshed s).2.client = s.client ∧
      (get_file fid s).2.client = s.client ∧
      (get_user_files count page_token s).2.client = s.client ∧
      (get_file_comments fid count page_token s).2.client = s.client ∧
      (download url refreshed file_id s).2.client = s.client ∧
      (get_user_files_generator_from count page_token fuel s).2.client = s.client ∧
      (get_file_comments_generator_from fid count page_token fuel s).2.client = s.client) :=
  ⟨⟨(evolves_request method path params refreshed s).creds,
    (evolves_request "get" ("files/" ++ fid) none false s).creds,
    (evolves_request "get" "files" (some (userFilesParams count page_token)) false s).creds,
    (evolves_request "get" ("files/" ++ fid ++ "/comments")
      (some (commentsParams count page_token)) false s).creds,
    (evolves_download url refreshed file_id s).creds,
    (evolves_user_gen count page_token fuel s).creds,
    (evolves_comments_gen fid count page_token fuel s).creds,
    (evolves_request method path params refreshed s).tokenByPost,
    (evolves_download url refreshed file_id s).tokenByPost,
    (evolves_user_gen count page_token fuel s).tokenByPost,
    (evolves_comments_gen fid count page_token fuel s).tokenByPost,
    client_request_true method path params s,
    client_download_true_none url s⟩,
   fun h =>
    ⟨client_request_no401 method path params refreshed s h,
     client_request_no401 "get" ("files/" ++ fid) none false s h,
     client_request_no401 "get" "files" (some (userFilesParams count page_token)) false s h,
     client_request_no401 "get" ("files/" ++ fid ++ "/comments")
       (some (commentsParams count page_token)) false s h,
     client_download_no401 url refreshed file_id s h,
     client_user_gen_no401 count page_token fuel s h,
     client_comments_gen_no401 fid count page_token fuel s h⟩⟩

/-- C10: when `download` hits a 403 with a non-null `file_id` and
`get_file` returns 200 with a body lacking `downloadUrl`, `download` does
not give up: it still issues the retry with a missing (`none`) URL,
because `.get('downloadUrl')` defaults to `None` and is never validated
before the recursive call. -/
theorem C10_missing_downloadUrl_still_retries
    (url : Option String) (refreshed : Bool) (fid : String) (s s2 : St)
    (r d : HttpResponse) (rest : List HttpResponse)
    (hs : s.script = r :: rest)
    (hr3 : r.status_code = 403)
    (hgf : get_file fid
      { s with script := rest,
               calls := s.calls ++ [downloadCall url s.client.token] } = (.ok d, s2))
    (hd : d.status_code = 200)
    (hurl : d.body.downloadUrl = none) :
    download url refreshed (some fid) s = download none refreshed none s2 ∧
    (∃ t, (download url refreshed (some fid) s).2.calls =
      s2.calls ++ downloadCall none s2.client.token :: t) := by
  have hmain := download_403_fid_ok url refreshed fid s s2 r d rest hs hr3 hgf hd
  rw [hurl] at hmain
  refine ⟨hmain, ?_⟩
  rw [hmain]
  exact download_first_call none refreshed none s2

/-- C9 witness: the invariants instantiated on a concrete one-response
script, with the 401-free hypothesis discharged. -/
theorem C9_witness :
    (sameCreds sC9.client (request "get" "files" none false sC9).2.client ∧
     sameCreds sC9.client (get_file "f1" sC9).2.client ∧
     sameCreds sC9.client (get_user_files 100 none sC9).2.client ∧
     sameCreds sC9.client (get_file_comments "f1" 100 none sC9).2.client ∧
     sameCreds sC9.client (download (some "u") false none sC9).2.client ∧
     sameCreds sC9.client (get_user_files_generator_from 100 none 1 sC9).2.client ∧
     sameCreds sC9.client (get_file_comments_generator_from "f1" 100 none 1 sC9).2.client ∧
     ((request "get" "files" none false sC9).2.client.token = sC9.client.token ∨
       postCount sC9.calls < postCount (request "get" "files" none false sC9).2.calls) ∧
     ((download (some "u") false none sC9).2.client.token = sC9.client.token ∨
       postCount sC9.calls < postCount (download (some "u") false none sC9).2.calls) ∧
     ((get_user_files_generator_from 100 none 1 sC9).2.client.token = sC9.client.token ∨
       postCount sC9.calls < postCount (get_user_files_generator_from 100 none 1 sC9).2.calls) ∧
     ((get_file_comments_generator_from "f1" 100 none 1 sC9).2.client.token =
         sC9.client.token ∨
       postCount sC9.calls <
         postCount (get_file_comments_generator_from "f1" 100 none 1 sC9).2.calls) ∧
     (request "get" "files" none true sC9).2.client = sC9.client ∧
     (download (some "u") true none sC9).2.client = sC9.client) ∧
    ((request "get" "files" none false sC9).2.client = sC9.client ∧
     (get_file "f1" sC9).2.client = sC9.client ∧
     (get_user_files 100 none sC9).2.client = sC9.client ∧
     (get_file_comments "f1" 100 none sC9).2.client = sC9.client ∧
     (download (some "u") false none sC9).2.client = sC9.client ∧
     (get_user_files_generator_from 100 none 1 sC9).2.client = sC9.client ∧
     (get_file_comments_generator_from "f1" 100 none 1 sC9).2.client = sC9.client) := by
  have h := C9_credentials_immutable "get" "files" none false (some "u") none "f1" 100 1 none sC9
  exact ⟨h.1, h.2 (by simp [no401, sC9, resp200])⟩

/-- C10 witness: the concrete run with a 200 file description that lacks
`downloadUrl`. -/
theorem C10_witness :
    sC10.script = resp403 :: [fileDescNoUrl, resp200] ∧
    resp403.status_code = 403 ∧
    get_file "f1"
      { sC10 with script := [fileDescNoUrl, resp200],
                  calls := sC10.calls ++ [downloadCall (some "https://old") sC10.client.token] } =
      (.ok fileDescNoUrl,
        { client := demoClient, script := [resp200],
          calls := [downloadCall (some "https://old") "tok0",
            apiCall "get" ("files/" ++ "f1") none "tok0"],
          callbackCalls := [], errors := [] }) ∧
    fileDescNoUrl.status_code = 200 ∧
    fileDescNoUrl.body.downloadUrl = none ∧
    (download (some "https://old") false (some "f1") sC10 =
      download none false none
        { client := demoClient, script := [resp200],
          calls := [downloadCall (some "https://old") "tok0",
            apiCall "get" ("files/" ++ "f1") none "tok0"],
          callbackCalls := [], errors := [] } ∧
     (∃ t, (download (some "https://old") false (some "f1") sC10).2.calls =
       ({ client := demoClient, script := [resp200],
          calls := [downloadCall (some "https://old") "tok0",
            apiCall "get" ("files/" ++ "f1") none "tok0"],
          callbackCalls := [], errors := [] } : St).calls ++
         downloadCall none
           ({ client := demoClient, script := [resp200],
              calls := [downloadCall (some "https://old") "tok0",
                apiCall "get" ("files/" ++ "f1") none "tok0"],
              callbackCalls := [], errors := [] } : St).client.token :: t)) := by
  have hgf : get_file "f1"
      { sC10 with script := [fileDescNoUrl, resp200],
                  calls := sC10.calls ++ [downloadCall (some "https://old") sC10.client.token] } =
      (.ok fileDescNoUrl,
        { client := demoClient, script := [resp200],
          calls := [downloadCall (some "https://old") "tok0",
            apiCall "get" ("files/" ++ "f1") none "tok0"],
          callbackCalls := [], errors := [] }) := by
    simp [get_file, request, http, token_header, sC10, demoClient, fileDescNoUrl, resp200,
      apiCall, downloadCall]
  exact ⟨rfl, rfl, hgf, rfl, rfl,
    C10_missing_downloadUrl_still_retries (some "https://old") false "f1" sC10 _
      resp403 fileDescNoUrl [fileDescNoUrl, resp200] rfl rfl hgf rfl rfl⟩

end Gdrive
